import Mathlib

/-!
Verification development for the GROMACS task-placement resolvers in
`src/gromacs/taskassignment/decidegpuusage.cpp`.

Each C++ resolver returns `bool` but may throw a structured exception
(`InconsistentInputError` or `NotImplementedError`); we embed each as a
total Lean function returning `Except GmxError Bool`.  External
collaborators (the PME capability queries `pme_gpu_supports_build`,
`pme_gpu_supports_hardware`, `pme_gpu_supports_input`, which depend on
`hardwareInfo`, `inputrec` and `mtop`) are abstracted as boolean inputs
paired with their reason messages, exactly as the resolver consumes them.
-/

namespace gmx

/-- The user-requested placement target for one duty
(`TaskTarget` in taskassignment.h): automatic, forced to CPU, forced to GPU. -/
inductive TaskTarget where
  | Auto
  | Cpu
  | Gpu
deriving DecidableEq, Repr

/-- Whether nonbonded GPU emulation was requested (`EmulateGpuNonbonded`). -/
inductive EmulateGpuNonbonded where
  | No
  | Yes
deriving DecidableEq, Repr

/-- The two structured-error categories thrown by the resolvers:
`InconsistentInputError` and `NotImplementedError` from utility/exceptions.h. -/
inductive ErrorCategory where
  | InconsistentInput
  | NotImplemented
deriving DecidableEq, Repr

/-- A structured error: category plus user-facing message. -/
structure GmxError where
  category : ErrorCategory
  message : String
deriving DecidableEq, Repr

/-- Result of a resolver: a placement boolean, or a raised structured error. -/
abbrev DecideResult := Except GmxError Bool

/-- The helper `g_specifyEverythingFormatString` with its `%s` hole filled.  The C++
string carries an additional build-configuration-dependent suffix
(selected by the `GMX_GPU` preprocessor symbol); we keep the
unconditional first sentence, which is what identifies the error. -/
def g_specifyEverythingFormatString (s : String) : String :=
  "When you use mdrun -gputasks, " ++ s ++
    " must be set to non-default values, so that the device IDs can be interpreted correctly."

/-- Outcome of the three external PME capability queries, as consumed by the
PME resolvers: `pme_gpu_supports_build`, `pme_gpu_supports_hardware`
(applied to `hardwareInfo`) and `pme_gpu_supports_input` (applied to
`inputrec` and `mtop`).  Each query yields a boolean and, on failure,
writes a reason message when a message out-parameter is supplied. -/
structure PmeGpuSupport where
  buildOk : Bool
  buildMessage : String
  hardwareOk : Bool
  hardwareMessage : String
  inputOk : Bool
  inputMessage : String
deriving DecidableEq, Repr

/-- Embeds `decideWhetherToUseGpusForNonbondedWithThreadMpi` (decidegpuusage.cpp,
lines 104-145). -/
def decideWhetherToUseGpusForNonbondedWithThreadMpi
    (nonbondedTarget : TaskTarget)
    (gpuIdsToUse : List Int)
    (userGpuTaskAssignment : List Int)
    (emulateGpuNonbonded : EmulateGpuNonbonded)
    (buildSupportsNonbondedOnGpu : Bool)
    (nonbondedOnGpuIsUseful : Bool)
    (numRanksPerSimulation : Int) : DecideResult :=
  -- First, exclude all cases where we can't run NB on GPUs.
  if nonbondedTarget = TaskTarget.Cpu ∨ emulateGpuNonbonded = EmulateGpuNonbonded.Yes
      ∨ ¬nonbondedOnGpuIsUseful ∨ ¬buildSupportsNonbondedOnGpu then
    .ok false
  else if ¬userGpuTaskAssignment.isEmpty then
    -- Specifying -gputasks requires specifying everything.
    if nonbondedTarget = TaskTarget.Auto ∨ numRanksPerSimulation < 1 then
      .error ⟨.InconsistentInput, g_specifyEverythingFormatString "-nb and -ntmpi"⟩
    else
      .ok true
  else if nonbondedTarget = TaskTarget.Gpu then
    .ok true
  else
    .ok (!gpuIdsToUse.isEmpty)

/-- Message of the thread-MPI PME resolver's InconsistentInputError for a
rank-topology violation on the explicit `-gputasks` path. -/
def pmeGputasksSinglePmeRankMessage : String :=
  "When you run mdrun -pme gpu -gputasks, you must supply a PME-enabled .tpr file and use a single PME rank."

/-- Message of the NotImplementedError raised when PME was required on GPUs
with an unsupported rank topology. -/
def pmeMultipleRanksNotImplementedMessage : String :=
  "PME tasks were required to run on GPUs, but that is not implemented with more than one PME rank. Use a single rank simulation, or a separate PME rank, or permit PME tasks to be assigned to the CPU."

/-- Embeds `decideWhetherToUseGpusForPmeWithThreadMpi` (decidegpuusage.cpp,
lines 147-233).  The three capability queries are called there with a null
message pointer, so only their booleans are consumed. -/
def decideWhetherToUseGpusForPmeWithThreadMpi
    (useGpuForNonbonded : Bool)
    (pmeTarget : TaskTarget)
    (gpuIdsToUse : List Int)
    (userGpuTaskAssignment : List Int)
    (support : PmeGpuSupport)
    (numRanksPerSimulation : Int)
    (numPmeRanksPerSimulation : Int) : DecideResult :=
  -- First, exclude all cases where we can't run PME on GPUs.
  if pmeTarget = TaskTarget.Cpu ∨ ¬useGpuForNonbonded ∨ ¬support.buildOk
      ∨ ¬support.hardwareOk ∨ ¬support.inputOk then
    -- PME can't run on a GPU. If the user required that, we issue an error later.
    .ok false
  else if ¬userGpuTaskAssignment.isEmpty then
    -- Specifying -gputasks requires specifying everything.
    if pmeTarget = TaskTarget.Auto ∨ numRanksPerSimulation < 1 then
      .error ⟨.InconsistentInput, g_specifyEverythingFormatString "all of -nb, -pme, and -ntmpi"⟩
    -- PME on GPUs is only supported in a single case
    else if pmeTarget = TaskTarget.Gpu then
      if (numRanksPerSimulation > 1 ∧ numPmeRanksPerSimulation = 0)
          ∨ numPmeRanksPerSimulation > 1 then
        .error ⟨.InconsistentInput, pmeGputasksSinglePmeRankMessage⟩
      else
        .ok true
    else
      -- pmeTarget == TaskTarget::Auto
      .ok (decide (numRanksPerSimulation = 1))
  else if pmeTarget = TaskTarget.Gpu then
    if (numRanksPerSimulation > 1 ∧ numPmeRanksPerSimulation = 0)
        ∨ numPmeRanksPerSimulation > 1 then
      .error ⟨.NotImplemented, pmeMultipleRanksNotImplementedMessage⟩
    else
      .ok true
  else if numRanksPerSimulation = 1 then
    -- PME can run well on a GPU shared with NB, and we permit mdrun to default to try that.
    .ok (!gpuIdsToUse.isEmpty)
  else if numRanksPerSimulation < 1 then
    -- Full automated mode for thread-MPI (the default).
    .ok (decide (gpuIdsToUse.length = 1))
  else
    -- Not enough support for PME on GPUs for anything else
    .ok false

/-- Message of the InconsistentInputError raised by
`decideWhetherToUseGpusForNonbonded` for a task assignment combined with a
CPU nonbonded target. -/
def nonbondedCpuTaskAssignmentMessage : String :=
  "A GPU task assignment was specified, but nonbonded interactions were assigned to the CPU. Make no more than one of these choices."

/-- Message of the InconsistentInputError raised by
`decideWhetherToUseGpusForNonbonded` for a task assignment combined with
requested GPU emulation. -/
def nonbondedEmulationTaskAssignmentMessage : String :=
  "GPU ID usage was specified, as was GPU emulation. Make no more than one of these choices."

/-- Embeds `decideWhetherToUseGpusForNonbonded` (decidegpuusage.cpp, lines 235-320). -/
def decideWhetherToUseGpusForNonbonded
    (nonbondedTarget : TaskTarget)
    (userGpuTaskAssignment : List Int)
    (emulateGpuNonbonded : EmulateGpuNonbonded)
    (buildSupportsNonbondedOnGpu : Bool)
    (nonbondedOnGpuIsUseful : Bool)
    (gpusWereDetected : Bool) : DecideResult :=
  if nonbondedTarget = TaskTarget.Cpu then
    if ¬userGpuTaskAssignment.isEmpty then
      .error ⟨.InconsistentInput, nonbondedCpuTaskAssignmentMessage⟩
    else
      .ok false
  else if ¬buildSupportsNonbondedOnGpu ∧ nonbondedTarget = TaskTarget.Gpu then
    .error ⟨.InconsistentInput,
      "Nonbonded interactions on the GPU were requested with -nb gpu, but the GROMACS binary has been built without GPU support. Either run without selecting GPU options, or recompile GROMACS with GPU support enabled"⟩
  else if emulateGpuNonbonded = EmulateGpuNonbonded.Yes then
    if nonbondedTarget = TaskTarget.Gpu then
      .error ⟨.InconsistentInput,
        "Nonbonded interactions on the GPU were required, which is inconsistent with choosing emulation. Make no more than one of these choices."⟩
    else if ¬userGpuTaskAssignment.isEmpty then
      .error ⟨.InconsistentInput, nonbondedEmulationTaskAssignmentMessage⟩
    else
      .ok false
  else if ¬nonbondedOnGpuIsUseful then
    if nonbondedTarget = TaskTarget.Gpu then
      .error ⟨.InconsistentInput,
        "Nonbonded interactions on the GPU were required, but not supported for these simulation settings. Change your settings, or do not require using GPUs."⟩
    else
      .ok false
  else if ¬userGpuTaskAssignment.isEmpty then
    -- Specifying -gputasks requires specifying everything.
    if nonbondedTarget = TaskTarget.Auto then
      .error ⟨.InconsistentInput, g_specifyEverythingFormatString "-nb and -ntmpi"⟩
    else
      .ok true
  else if nonbondedTarget = TaskTarget.Gpu then
    .ok true
  else
    .ok gpusWereDetected

/-- Message of the NotImplementedError raised when PME was required on GPUs
but nonbonded interactions are not on GPUs. -/
def pmeRequiresNonbondedMessage : String :=
  "PME on GPUs is only supported when nonbonded interactions run on GPUs also."

/-- Shared message head of the three capability-failure errors of
`decideWhetherToUseGpusForPme`, completed with the failing query's reason. -/
def cannotComputePmeMessage (reason : String) : String :=
  "Cannot compute PME interactions on a GPU, because " ++ reason

/-- Message of the (unreachable) InconsistentInputError of
`decideWhetherToUseGpusForPme` for a task assignment combined with a CPU
PME target. -/
def pmeCpuTaskAssignmentMessage : String :=
  "A GPU task assignment was specified, but PME interactions were assigned to the CPU. Make no more than one of these choices."

/-- Embeds `decideWhetherToUseGpusForPme` (decidegpuusage.cpp, lines 322-426).
Here the capability queries are called with a message out-parameter, whose
content feeds the raised errors. -/
def decideWhetherToUseGpusForPme
    (useGpuForNonbonded : Bool)
    (pmeTarget : TaskTarget)
    (userGpuTaskAssignment : List Int)
    (support : PmeGpuSupport)
    (numRanksPerSimulation : Int)
    (numPmeRanksPerSimulation : Int)
    (gpusWereDetected : Bool) : DecideResult :=
  if pmeTarget = TaskTarget.Cpu then
    .ok false
  else if ¬useGpuForNonbonded then
    if pmeTarget = TaskTarget.Gpu then
      .error ⟨.NotImplemented, pmeRequiresNonbondedMessage⟩
    else
      .ok false
  else if ¬support.buildOk then
    if pmeTarget = TaskTarget.Gpu then
      .error ⟨.NotImplemented, cannotComputePmeMessage support.buildMessage⟩
    else
      .ok false
  else if ¬support.hardwareOk then
    if pmeTarget = TaskTarget.Gpu then
      .error ⟨.NotImplemented, cannotComputePmeMessage support.hardwareMessage⟩
    else
      .ok false
  else if ¬support.inputOk then
    if pmeTarget = TaskTarget.Gpu then
      .error ⟨.NotImplemented, cannotComputePmeMessage support.inputMessage⟩
    else
      .ok false
  else if pmeTarget = TaskTarget.Cpu then
    -- Dead code in the source: a Cpu target already returned false above.
    if ¬userGpuTaskAssignment.isEmpty then
      .error ⟨.InconsistentInput, pmeCpuTaskAssignmentMessage⟩
    else
      .ok false
  else if ¬userGpuTaskAssignment.isEmpty then
    -- Specifying -gputasks requires specifying everything.
    if pmeTarget = TaskTarget.Auto then
      .error ⟨.InconsistentInput, g_specifyEverythingFormatString "all of -nb, -pme, and -ntmpi"⟩
    else
      .ok true
  else if pmeTarget = TaskTarget.Gpu then
    if (numRanksPerSimulation > 1 ∧ numPmeRanksPerSimulation = 0)
        ∨ numPmeRanksPerSimulation > 1 then
      .error ⟨.NotImplemented, pmeMultipleRanksNotImplementedMessage⟩
    else
      .ok true
  else if numRanksPerSimulation = 1 then
    -- PME can run well on a single GPU shared with NB when there is one rank.
    .ok gpusWereDetected
  else
    -- Not enough support for PME on GPUs for anything else
    .ok false

/-- Embeds `decideWhetherToUseGpusForBonded` (decidegpuusage.cpp, lines 428-487). -/
def decideWhetherToUseGpusForBonded
    (useGpuForNonbonded : Bool)
    (useGpuForPme : Bool)
    (bondedTarget : TaskTarget)
    (canUseGpuForBonded : Bool)
    (usingLJPme : Bool)
    (usingElecPmeOrEwald : Bool)
    (numPmeRanksPerSimulation : Int)
    (gpusWereDetected : Bool) : DecideResult :=
  if bondedTarget = TaskTarget.Cpu then
    .ok false
  else if ¬canUseGpuForBonded then
    if bondedTarget = TaskTarget.Gpu then
      .error ⟨.InconsistentInput,
        "Bonded interactions on the GPU were required, but not supported for these simulation settings. Change your settings, or do not require using GPUs."⟩
    else
      .ok false
  else if ¬useGpuForNonbonded then
    if bondedTarget = TaskTarget.Gpu then
      .error ⟨.InconsistentInput,
        "Bonded interactions on the GPU were required, but this requires that short-ranged non-bonded interactions are also run on the GPU. Change your settings, or do not require using GPUs."⟩
    else
      .ok false
  else if bondedTarget = TaskTarget.Gpu then
    -- We still don't know whether it is an error if no GPUs are found.
    .ok true
  else
    -- Use the GPU for bonded interactions if any were detected and the CPU
    -- is busy, for which we currently only check PME or Ewald.
    let usingOurCpuForPmeOrEwald :=
      usingLJPme || (usingElecPmeOrEwald && !useGpuForPme && decide (numPmeRanksPerSimulation ≤ 0))
    .ok (gpusWereDetected && usingOurCpuForPmeOrEwald)

/-- Enum constants from md_enums.h (external to the shown sources); the
update resolver only compares against them, so their exact values are
immaterial as long as they match the header's distinct positions. -/
def eiMD : Int := 0

/-- Constant `etcNOSEHOOVER` from md_enums.h. -/
def etcNOSEHOOVER : Int := 2

/-- Constant `epcNO` from md_enums.h. -/
def epcNO : Int := 0

/-- Constant `epcBERENDSEN` from md_enums.h. -/
def epcBERENDSEN : Int := 1

/-- Constant `epcPARRINELLORAHMAN` from md_enums.h. -/
def epcPARRINELLORAHMAN : Int := 2

/-- Constant `efepNO` from md_enums.h. -/
def efepNO : Int := 0

/-- Constant `eswapNO` from md_enums.h. -/
def eswapNO : Int := 0

/-- The fields of `t_inputrec` (mdtypes/inputrec.h, external to the shown
sources) that `decideWhetherToUseGpuForUpdate` reads.  `eelPmeEwald` stands
for the value of the md_enums.h predicate `EEL_PME_EWALD(coulombtype)`
(long-range electrostatics use a PME/Ewald reciprocal method), whose
defining header is not among the shown sources.  `epsilon_surface` is a
real in C; the resolver only tests it against zero, which the rationals
model exactly. -/
structure t_inputrec where
  eI : Int
  etc : Int
  epc : Int
  eelPmeEwald : Bool
  epsilon_surface : Rat
  bPull : Bool
  pull : Bool
  efep : Int
  eSwapCoords : Int
deriving DecidableEq, Repr

/-- The sequence of condition messages accumulated into `errorMessage` by
`decideWhetherToUseGpuForUpdate` (decidegpuusage.cpp, lines 507-576), in
source order: each violated condition appends its own line.  The C++
accumulates into one string; `String.join` of this list is that string. -/
def updateErrorMessages
    (isDomainDecomposition : Bool)
    (useGpuForPme : Bool)
    (useGpuForNonbonded : Bool)
    (gpusWereDetected : Bool)
    (buildIsCuda : Bool)
    (inputrec : t_inputrec)
    (haveVSites : Bool)
    (useEssentialDynamics : Bool)
    (doOrientationRestraints : Bool)
    (useReplicaExchange : Bool) : List String :=
  (if isDomainDecomposition then ["Domain decomposition is not supported.\n"] else []) ++
  ((if ¬(useGpuForPme ∨ useGpuForNonbonded) then
      ["Either PME or short-ranged non-bonded interaction tasks must run on the GPU.\n"]
    else []) ++
  ((if ¬gpusWereDetected then ["Compatible GPUs must have been found.\n"] else []) ++
  ((if ¬buildIsCuda then ["Only a CUDA build is supported.\n"] else []) ++
  ((if inputrec.eI ≠ eiMD then ["Only the md integrator is supported.\n"] else []) ++
  ((if inputrec.etc = etcNOSEHOOVER then
      ["Nose-Hoover temperature coupling is not supported.\n"]
    else []) ++
  ((if ¬(inputrec.epc = epcNO ∨ inputrec.epc = epcPARRINELLORAHMAN
        ∨ inputrec.epc = epcBERENDSEN) then
      ["Only Parrinello-Rahman and Berendsen pressure coupling are supported.\n"]
    else []) ++
  ((if inputrec.eelPmeEwald ∧ inputrec.epsilon_surface ≠ 0 then
      ["Ewald surface correction is not supported.\n"]
    else []) ++
  ((if haveVSites then ["Virtual sites are not supported.\n"] else []) ++
  ((if useEssentialDynamics then ["Essential dynamics is not supported.\n"] else []) ++
  ((if inputrec.bPull ∨ inputrec.pull then ["Pulling is not supported.\n"] else []) ++
  ((if doOrientationRestraints then ["Orientation restraints are not supported.\n"] else []) ++
  ((if inputrec.efep ≠ efepNO then ["Free energy perturbations are not supported.\n"] else []) ++
  ((if useReplicaExchange then ["Replica exchange simulations are not supported.\n"] else []) ++
  (if inputrec.eSwapCoords ≠ eswapNO then ["Swapping the coordinates is not supported.\n"] else []))))))))))))))

/-- Header prepended to the aggregated unmet-condition list when the update
task was required on the GPU. -/
def updateRequiredMessageHeader : String :=
  "Update task on the GPU was required,\nbut the following condition(s) were not satisfied:\n"

/-- Embeds `decideWhetherToUseGpuForUpdate` (decidegpuusage.cpp, lines 489-596).
`buildIsCuda` stands for the compile-time condition
`GMX_GPU == GMX_GPU_CUDA`.  The source tests `!errorMessage.empty()` on the
accumulated string; every appended piece is a non-empty literal, so that
string is empty exactly when the accumulated list is empty. -/
def decideWhetherToUseGpuForUpdate
    (forceGpuUpdateDefaultOn : Bool)
    (isDomainDecomposition : Bool)
    (useGpuForPme : Bool)
    (useGpuForNonbonded : Bool)
    (updateTarget : TaskTarget)
    (gpusWereDetected : Bool)
    (buildIsCuda : Bool)
    (inputrec : t_inputrec)
    (haveVSites : Bool)
    (useEssentialDynamics : Bool)
    (doOrientationRestraints : Bool)
    (useReplicaExchange : Bool) : DecideResult :=
  if updateTarget = TaskTarget.Cpu then
    .ok false
  else
    let messages := updateErrorMessages isDomainDecomposition useGpuForPme
      useGpuForNonbonded gpusWereDetected buildIsCuda inputrec haveVSites
      useEssentialDynamics doOrientationRestraints useReplicaExchange
    if ¬messages.isEmpty then
      if updateTarget = TaskTarget.Gpu then
        .error ⟨.InconsistentInput, updateRequiredMessageHeader ++ String.join messages⟩
      else
        .ok false
    else
      .ok ((forceGpuUpdateDefaultOn && decide (updateTarget = TaskTarget.Auto))
        || decide (updateTarget = TaskTarget.Gpu))

/-! ## Claim theorems -/

/-- Claim C1: for every input combination on which a PME resolver
(`decideWhetherToUseGpusForPmeWithThreadMpi` or `decideWhetherToUseGpusForPme`)
returns true rather than raising, the nonbonded-placement input
(`useGpuForNonbonded`) passed to it is true; no input produces PME placed on
the accelerator while nonbonded is not. -/
theorem pme_on_gpu_requires_nonbonded_on_gpu :
    (∀ (useGpuForNonbonded : Bool) (pmeTarget : TaskTarget)
        (gpuIdsToUse userGpuTaskAssignment : List Int) (support : PmeGpuSupport)
        (numRanksPerSimulation numPmeRanksPerSimulation : Int),
        decideWhetherToUseGpusForPmeWithThreadMpi useGpuForNonbonded pmeTarget
            gpuIdsToUse userGpuTaskAssignment support numRanksPerSimulation
            numPmeRanksPerSimulation = .ok true →
        useGpuForNonbonded = true) ∧
    (∀ (useGpuForNonbonded : Bool) (pmeTarget : TaskTarget)
        (userGpuTaskAssignment : List Int) (support : PmeGpuSupport)
        (numRanksPerSimulation numPmeRanksPerSimulation : Int)
        (gpusWereDetected : Bool),
        decideWhetherToUseGpusForPme useGpuForNonbonded pmeTarget
            userGpuTaskAssignment support numRanksPerSimulation
            numPmeRanksPerSimulation gpusWereDetected = .ok true →
        useGpuForNonbonded = true) := by
  constructor
  · intro nb pmeTarget gpuIds ua support r p h
    cases nb with
    | true => rfl
    | false =>
      exfalso
      cases pmeTarget <;>
        simp [decideWhetherToUseGpusForPmeWithThreadMpi] at h
  · intro nb pmeTarget ua support r p gd h
    cases nb with
    | true => rfl
    | false =>
      exfalso
      cases pmeTarget <;> simp [decideWhetherToUseGpusForPme] at h

/-- Concrete instance discharging the hypothesis of the C1 theorem: an input
on which the thread-MPI PME resolver returns true, whose nonbonded input is
indeed true. -/
theorem pme_on_gpu_requires_nonbonded_on_gpu_witness :
    decideWhetherToUseGpusForPmeWithThreadMpi true TaskTarget.Gpu [] []
        ⟨true, "", true, "", true, ""⟩ 1 1 = .ok true ∧ (true : Bool) = true :=
  ⟨rfl, pme_on_gpu_requires_nonbonded_on_gpu.1 true TaskTarget.Gpu [] []
      ⟨true, "", true, "", true, ""⟩ 1 1 rfl⟩

/-- Claim C2 counterexample: in the thread-MPI PME resolver, with the build
capability predicate failing and the PME target ForceAccelerator, the
resolver returns false instead of raising, contradicting the claim that the
ForceAccelerator target raises in the thread-MPI variant too. -/
theorem threadMpi_pme_capability_failure_returns_false_despite_gpu_target :
    decideWhetherToUseGpusForPmeWithThreadMpi true TaskTarget.Gpu [] []
        ⟨false, "build unsupported", true, "", true, ""⟩ 1 1 = .ok false := rfl

/-- Claim C2 (amended): in `decideWhetherToUseGpusForPme`, a failing
capability predicate (or nonbonded not on the accelerator) yields false
unless the target is ForceAccelerator, in which case a NotImplemented error
carrying the specific failing predicate's reason is raised; the thread-MPI
variant instead returns false in all of these cases regardless of target. -/
theorem pme_capability_failure_handling :
    (∀ (nb : Bool) (gpuIds ua : List Int) (support : PmeGpuSupport) (r p : Int),
        decideWhetherToUseGpusForPmeWithThreadMpi nb TaskTarget.Cpu gpuIds ua
          support r p = .ok false) ∧
    (∀ (t : TaskTarget) (gpuIds ua : List Int) (support : PmeGpuSupport) (r p : Int),
        decideWhetherToUseGpusForPmeWithThreadMpi false t gpuIds ua support r p = .ok false) ∧
    (∀ (t : TaskTarget) (gpuIds ua : List Int) (bm hm im : String) (hw inp : Bool) (r p : Int),
        decideWhetherToUseGpusForPmeWithThreadMpi true t gpuIds ua
          ⟨false, bm, hw, hm, inp, im⟩ r p = .ok false) ∧
    (∀ (t : TaskTarget) (gpuIds ua : List Int) (bm hm im : String) (b inp : Bool) (r p : Int),
        decideWhetherToUseGpusForPmeWithThreadMpi true t gpuIds ua
          ⟨b, bm, false, hm, inp, im⟩ r p = .ok false) ∧
    (∀ (t : TaskTarget) (gpuIds ua : List Int) (bm hm im : String) (b hw : Bool) (r p : Int),
        decideWhetherToUseGpusForPmeWithThreadMpi true t gpuIds ua
          ⟨b, bm, hw, hm, false, im⟩ r p = .ok false) ∧
    (∀ (ua : List Int) (support : PmeGpuSupport) (r p : Int) (gd : Bool),
        decideWhetherToUseGpusForPme false TaskTarget.Gpu ua support r p gd =
          .error ⟨.NotImplemented, pmeRequiresNonbondedMessage⟩) ∧
    (∀ (ua : List Int) (bm hm im : String) (hw inp : Bool) (r p : Int) (gd : Bool),
        decideWhetherToUseGpusForPme true TaskTarget.Gpu ua
          ⟨false, bm, hw, hm, inp, im⟩ r p gd =
          .error ⟨.NotImplemented, cannotComputePmeMessage bm⟩) ∧
    (∀ (ua : List Int) (bm hm im : String) (inp : Bool) (r p : Int) (gd : Bool),
        decideWhetherToUseGpusForPme true TaskTarget.Gpu ua
          ⟨true, bm, false, hm, inp, im⟩ r p gd =
          .error ⟨.NotImplemented, cannotComputePmeMessage hm⟩) ∧
    (∀ (ua : List Int) (bm hm im : String) (r p : Int) (gd : Bool),
        decideWhetherToUseGpusForPme true TaskTarget.Gpu ua
          ⟨true, bm, true, hm, false, im⟩ r p gd =
          .error ⟨.NotImplemented, cannotComputePmeMessage im⟩) ∧
    (∀ (nb : Bool) (ua : List Int) (support : PmeGpuSupport) (r p : Int) (gd : Bool),
        decideWhetherToUseGpusForPme nb TaskTarget.Cpu ua support r p gd = .ok false) ∧
    (∀ (ua : List Int) (support : PmeGpuSupport) (r p : Int) (gd : Bool),
        decideWhetherToUseGpusForPme false TaskTarget.Auto ua support r p gd = .ok false) ∧
    (∀ (ua : List Int) (bm hm im : String) (hw inp : Bool) (r p : Int) (gd : Bool),
        decideWhetherToUseGpusForPme true TaskTarget.Auto ua
          ⟨false, bm, hw, hm, inp, im⟩ r p gd = .ok false) ∧
    (∀ (ua : List Int) (bm hm im : String) (inp : Bool) (r p : Int) (gd : Bool),
        decideWhetherToUseGpusForPme true TaskTarget.Auto ua
          ⟨true, bm, false, hm, inp, im⟩ r p gd = .ok false) ∧
    (∀ (ua : List Int) (bm hm im : String) (r p : Int) (gd : Bool),
        decideWhetherToUseGpusForPme true TaskTarget.Auto ua
          ⟨true, bm, true, hm, false, im⟩ r p gd = .ok false) := by
  refine ⟨?_, ?_, ?_, ?_, ?_, ?_, ?_, ?_, ?_, ?_, ?_, ?_, ?_, ?_⟩ <;>
    intros <;>
    simp [decideWhetherToUseGpusForPmeWithThreadMpi, decideWhetherToUseGpusForPme]

/-- Claim C3 counterexample: in the thread-MPI PME resolver's
explicit-device-assignment path, a ForceAccelerator PME target with a
violated single-PME-rank cardinality check (4 total ranks, 2 dedicated PME
ranks) raises InconsistentInput, not NotImplemented. -/
theorem threadMpi_pme_gputasks_rank_violation_raises_inconsistent_input :
    decideWhetherToUseGpusForPmeWithThreadMpi true TaskTarget.Gpu [0] [0]
        ⟨true, "", true, "", true, ""⟩ 4 2 =
      .error ⟨.InconsistentInput, pmeGputasksSinglePmeRankMessage⟩ := rfl

/-- Claim C3 (amended): with a ForceAccelerator PME target and the
single-PME-rank cardinality check violated, both resolvers raise
NotImplemented on the no-assignment path; the thread-MPI resolver's
explicit-assignment path raises InconsistentInput instead, and
`decideWhetherToUseGpusForPme`'s explicit-assignment path performs no
cardinality check at all and returns true. -/
theorem pme_rank_topology_violation_handling :
    (∀ (gpuIds : List Int) (bm hm im : String) (r p : Int),
        (r > 1 ∧ p = 0) ∨ p > 1 →
        decideWhetherToUseGpusForPmeWithThreadMpi true TaskTarget.Gpu gpuIds []
          ⟨true, bm, true, hm, true, im⟩ r p =
          .error ⟨.NotImplemented, pmeMultipleRanksNotImplementedMessage⟩) ∧
    (∀ (bm hm im : String) (r p : Int) (gd : Bool),
        (r > 1 ∧ p = 0) ∨ p > 1 →
        decideWhetherToUseGpusForPme true TaskTarget.Gpu []
          ⟨true, bm, true, hm, true, im⟩ r p gd =
          .error ⟨.NotImplemented, pmeMultipleRanksNotImplementedMessage⟩) ∧
    (∀ (gpuIds : List Int) (g : Int) (gs : List Int) (bm hm im : String) (r p : Int),
        ¬(r < 1) →
        (r > 1 ∧ p = 0) ∨ p > 1 →
        decideWhetherToUseGpusForPmeWithThreadMpi true TaskTarget.Gpu gpuIds (g :: gs)
          ⟨true, bm, true, hm, true, im⟩ r p =
          .error ⟨.InconsistentInput, pmeGputasksSinglePmeRankMessage⟩) ∧
    (∀ (g : Int) (gs : List Int) (bm hm im : String) (r p : Int) (gd : Bool),
        decideWhetherToUseGpusForPme true TaskTarget.Gpu (g :: gs)
          ⟨true, bm, true, hm, true, im⟩ r p gd = .ok true) := by
  refine ⟨?_, ?_, ?_, ?_⟩
  · intro gpuIds bm hm im r p h
    simp [decideWhetherToUseGpusForPmeWithThreadMpi, h]
  · intro bm hm im r p gd h
    simp [decideWhetherToUseGpusForPme, h]
  · intro gpuIds g gs bm hm im r p hr h
    simp [decideWhetherToUseGpusForPmeWithThreadMpi, hr, h]
  · intro g gs bm hm im r p gd
    simp [decideWhetherToUseGpusForPme]

/-- Concrete instance discharging the hypotheses of the C3 theorem: the
rank topology of spec Scenario E (4 total ranks, 2 dedicated PME ranks). -/
theorem pme_rank_topology_violation_handling_witness :
    ((((4 : Int) > 1 ∧ (2 : Int) = 0) ∨ (2 : Int) > 1) ∧
      decideWhetherToUseGpusForPmeWithThreadMpi true TaskTarget.Gpu [] []
        ⟨true, "", true, "", true, ""⟩ 4 2 =
        .error ⟨.NotImplemented, pmeMultipleRanksNotImplementedMessage⟩) :=
  ⟨by decide, pme_rank_topology_violation_handling.1 [] "" "" "" 4 2 (by decide)⟩

/-- Claim C4: for the update resolver with target not ForceCPU: a non-empty
violated-condition list with target ForceAccelerator raises one single
InconsistentInput error whose message is the header followed by every
violated condition's line (each violated condition, domain decomposition
included, contributes its line to the list); a non-empty list with target
Auto returns false silently; an empty list returns true iff (the
default-recommend flag is set and target is Auto) or target is
ForceAccelerator. -/
theorem update_resolver_contract :
    (∀ (fgu dd pme nb gd cuda : Bool) (ir : t_inputrec) (vs ed orr re : Bool),
        updateErrorMessages dd pme nb gd cuda ir vs ed orr re ≠ [] →
        decideWhetherToUseGpuForUpdate fgu dd pme nb TaskTarget.Gpu gd cuda ir vs ed orr re =
          .error ⟨.InconsistentInput, updateRequiredMessageHeader ++
            String.join (updateErrorMessages dd pme nb gd cuda ir vs ed orr re)⟩) ∧
    (∀ (fgu dd pme nb gd cuda : Bool) (ir : t_inputrec) (vs ed orr re : Bool),
        updateErrorMessages dd pme nb gd cuda ir vs ed orr re ≠ [] →
        decideWhetherToUseGpuForUpdate fgu dd pme nb TaskTarget.Auto gd cuda ir vs ed orr re =
          .ok false) ∧
    (∀ (fgu dd pme nb gd cuda : Bool) (ir : t_inputrec) (vs ed orr re : Bool),
        updateErrorMessages dd pme nb gd cuda ir vs ed orr re = [] →
        decideWhetherToUseGpuForUpdate fgu dd pme nb TaskTarget.Auto gd cuda ir vs ed orr re =
          .ok fgu) ∧
    (∀ (fgu dd pme nb gd cuda : Bool) (ir : t_inputrec) (vs ed orr re : Bool),
        updateErrorMessages dd pme nb gd cuda ir vs ed orr re = [] →
        decideWhetherToUseGpuForUpdate fgu dd pme nb TaskTarget.Gpu gd cuda ir vs ed orr re =
          .ok true) ∧
    (∀ (pme nb gd cuda : Bool) (ir : t_inputrec) (vs ed orr re : Bool),
        "Domain decomposition is not supported.\n" ∈
          updateErrorMessages true pme nb gd cuda ir vs ed orr re) ∧
    (∀ (dd gd cuda : Bool) (ir : t_inputrec) (vs ed orr re : Bool),
        "Either PME or short-ranged non-bonded interaction tasks must run on the GPU.\n" ∈
          updateErrorMessages dd false false gd cuda ir vs ed orr re) ∧
    (∀ (dd pme nb cuda : Bool) (ir : t_inputrec) (vs ed orr re : Bool),
        "Compatible GPUs must have been found.\n" ∈
          updateErrorMessages dd pme nb false cuda ir vs ed orr re) ∧
    (∀ (dd pme nb gd : Bool) (ir : t_inputrec) (vs ed orr re : Bool),
        "Only a CUDA build is supported.\n" ∈
          updateErrorMessages dd pme nb gd false ir vs ed orr re) ∧
    (∀ (dd pme nb gd cuda : Bool) (ir : t_inputrec) (vs ed orr re : Bool),
        ir.eI ≠ eiMD →
        "Only the md integrator is supported.\n" ∈
          updateErrorMessages dd pme nb gd cuda ir vs ed orr re) ∧
    (∀ (dd pme nb gd cuda : Bool) (ir : t_inputrec) (vs ed orr re : Bool),
        ir.etc = etcNOSEHOOVER →
        "Nose-Hoover temperature coupling is not supported.\n" ∈
          updateErrorMessages dd pme nb gd cuda ir vs ed orr re) ∧
    (∀ (dd pme nb gd cuda : Bool) (ir : t_inputrec) (vs ed orr re : Bool),
        ¬(ir.epc = epcNO ∨ ir.epc = epcPARRINELLORAHMAN ∨ ir.epc = epcBERENDSEN) →
        "Only Parrinello-Rahman and Berendsen pressure coupling are supported.\n" ∈
          updateErrorMessages dd pme nb gd cuda ir vs ed orr re) ∧
    (∀ (dd pme nb gd cuda : Bool) (ir : t_inputrec) (vs ed orr re : Bool),
        ir.eelPmeEwald ∧ ir.epsilon_surface ≠ 0 →
        "Ewald surface correction is not supported.\n" ∈
          updateErrorMessages dd pme nb gd cuda ir vs ed orr re) ∧
    (∀ (dd pme nb gd cuda : Bool) (ir : t_inputrec) (ed orr re : Bool),
        "Virtual sites are not supported.\n" ∈
          updateErrorMessages dd pme nb gd cuda ir true ed orr re) ∧
    (∀ (dd pme nb gd cuda : Bool) (ir : t_inputrec) (vs orr re : Bool),
        "Essential dynamics is not supported.\n" ∈
          updateErrorMessages dd pme nb gd cuda ir vs true orr re) ∧
    (∀ (dd pme nb gd cuda : Bool) (ir : t_inputrec) (vs ed orr re : Bool),
        ir.bPull ∨ ir.pull →
        "Pulling is not supported.\n" ∈
          updateErrorMessages dd pme nb gd cuda ir vs ed orr re) ∧
    (∀ (dd pme nb gd cuda : Bool) (ir : t_inputrec) (vs ed re : Bool),
        "Orientation restraints are not supported.\n" ∈
          updateErrorMessages dd pme nb gd cuda ir vs ed true re) ∧
    (∀ (dd pme nb gd cuda : Bool) (ir : t_inputrec) (vs ed orr re : Bool),
        ir.efep ≠ efepNO →
        "Free energy perturbations are not supported.\n" ∈
          updateErrorMessages dd pme nb gd cuda ir vs ed orr re) ∧
    (∀ (dd pme nb gd cuda : Bool) (ir : t_inputrec) (vs ed orr : Bool),
        "Replica exchange simulations are not supported.\n" ∈
          updateErrorMessages dd pme nb gd cuda ir vs ed orr true) ∧
    (∀ (dd pme nb gd cuda : Bool) (ir : t_inputrec) (vs ed orr re : Bool),
        ir.eSwapCoords ≠ eswapNO →
        "Swapping the coordinates is not supported.\n" ∈
          updateErrorMessages dd pme nb gd cuda ir vs ed orr re) := by
  refine ⟨?_, ?_, ?_, ?_, ?_, ?_, ?_, ?_, ?_, ?_, ?_, ?_, ?_, ?_, ?_, ?_, ?_, ?_, ?_⟩ <;> intros
  case refine_4 =>
    rename_i h
    simp [decideWhetherToUseGpuForUpdate, h]
  all_goals simp_all [decideWhetherToUseGpuForUpdate, updateErrorMessages]

/-- Concrete instance discharging the hypothesis of the C4 theorem: spec
Scenario C (domain decomposition active, update target Gpu, nonbonded on
the GPU) raises the aggregated error containing the domain-decomposition
line. -/
theorem update_resolver_contract_witness :
    updateErrorMessages true true true true true ⟨0, 0, 0, false, 0, false, false, 0, 0⟩
        false false false false ≠ [] ∧
    decideWhetherToUseGpuForUpdate false true true true TaskTarget.Gpu true true
        ⟨0, 0, 0, false, 0, false, false, 0, 0⟩ false false false false =
      .error ⟨.InconsistentInput, updateRequiredMessageHeader ++
        String.join (updateErrorMessages true true true true true
          ⟨0, 0, 0, false, 0, false, false, 0, 0⟩ false false false false)⟩ :=
  ⟨by decide, update_resolver_contract.1 false true true true true true
      ⟨0, 0, 0, false, 0, false, false, 0, 0⟩ false false false false (by decide)⟩

/-- Claim C5 counterexample: with a non-empty explicit device assignment and
an Auto nonbonded target, but GPU emulation requested, the thread-MPI
nonbonded resolver returns the boolean false instead of raising. -/
theorem auto_target_with_assignment_can_return_boolean :
    decideWhetherToUseGpusForNonbondedWithThreadMpi TaskTarget.Auto [0] [0]
        EmulateGpuNonbonded.Yes true true 1 = .ok false := rfl

/-- Claim C5 (amended): for each resolver consuming the explicit device
assignment, once the resolver's earlier silent-downgrade guards pass
(nonbonded: no emulation, settings useful, and — thread-MPI — build
support; PME: nonbonded on the accelerator and all three capability
predicates passing), a non-empty assignment with an Auto target raises the
specify-everything InconsistentInput error.  Inputs rejected by those
guards return false, except in `decideWhetherToUseGpusForNonbonded` with
GPU emulation requested, where a non-empty assignment raises the
emulation-vs-assignment InconsistentInput error; so a non-empty assignment
with an Auto target either returns false or raises InconsistentInput, but
does not always raise. -/
theorem auto_target_with_assignment_raises_after_guards :
    (∀ (gpuIds : List Int) (g : Int) (gs : List Int) (r : Int),
        decideWhetherToUseGpusForNonbondedWithThreadMpi TaskTarget.Auto gpuIds
          (g :: gs) EmulateGpuNonbonded.No true true r =
          .error ⟨.InconsistentInput, g_specifyEverythingFormatString "-nb and -ntmpi"⟩) ∧
    (∀ (g : Int) (gs : List Int) (build gd : Bool),
        decideWhetherToUseGpusForNonbonded TaskTarget.Auto (g :: gs)
          EmulateGpuNonbonded.No build true gd =
          .error ⟨.InconsistentInput, g_specifyEverythingFormatString "-nb and -ntmpi"⟩) ∧
    (∀ (gpuIds : List Int) (g : Int) (gs : List Int) (bm hm im : String) (r p : Int),
        decideWhetherToUseGpusForPmeWithThreadMpi true TaskTarget.Auto gpuIds
          (g :: gs) ⟨true, bm, true, hm, true, im⟩ r p =
          .error ⟨.InconsistentInput,
            g_specifyEverythingFormatString "all of -nb, -pme, and -ntmpi"⟩) ∧
    (∀ (g : Int) (gs : List Int) (bm hm im : String) (r p : Int) (gd : Bool),
        decideWhetherToUseGpusForPme true TaskTarget.Auto (g :: gs)
          ⟨true, bm, true, hm, true, im⟩ r p gd =
          .error ⟨.InconsistentInput,
            g_specifyEverythingFormatString "all of -nb, -pme, and -ntmpi"⟩) ∧
    (∀ (gpuIds : List Int) (g : Int) (gs : List Int) (b u : Bool) (r : Int),
        decideWhetherToUseGpusForNonbondedWithThreadMpi TaskTarget.Auto gpuIds
          (g :: gs) EmulateGpuNonbonded.Yes b u r = .ok false) ∧
    (∀ (gpuIds : List Int) (g : Int) (gs : List Int) (b : Bool) (r : Int),
        decideWhetherToUseGpusForNonbondedWithThreadMpi TaskTarget.Auto gpuIds
          (g :: gs) EmulateGpuNonbonded.No b false r = .ok false) ∧
    (∀ (gpuIds : List Int) (g : Int) (gs : List Int) (u : Bool) (r : Int),
        decideWhetherToUseGpusForNonbondedWithThreadMpi TaskTarget.Auto gpuIds
          (g :: gs) EmulateGpuNonbonded.No false u r = .ok false) ∧
    (∀ (g : Int) (gs : List Int) (b u gd : Bool),
        decideWhetherToUseGpusForNonbonded TaskTarget.Auto (g :: gs)
          EmulateGpuNonbonded.Yes b u gd =
          .error ⟨.InconsistentInput, nonbondedEmulationTaskAssignmentMessage⟩) ∧
    (∀ (g : Int) (gs : List Int) (b gd : Bool),
        decideWhetherToUseGpusForNonbonded TaskTarget.Auto (g :: gs)
          EmulateGpuNonbonded.No b false gd = .ok false) ∧
    (∀ (gpuIds : List Int) (g : Int) (gs : List Int) (support : PmeGpuSupport) (r p : Int),
        decideWhetherToUseGpusForPmeWithThreadMpi false TaskTarget.Auto gpuIds
          (g :: gs) support r p = .ok false) ∧
    (∀ (gpuIds : List Int) (g : Int) (gs : List Int) (bm hm im : String)
        (hw inp : Bool) (r p : Int),
        decideWhetherToUseGpusForPmeWithThreadMpi true TaskTarget.Auto gpuIds
          (g :: gs) ⟨false, bm, hw, hm, inp, im⟩ r p = .ok false) ∧
    (∀ (gpuIds : List Int) (g : Int) (gs : List Int) (bm hm im : String)
        (b inp : Bool) (r p : Int),
        decideWhetherToUseGpusForPmeWithThreadMpi true TaskTarget.Auto gpuIds
          (g :: gs) ⟨b, bm, false, hm, inp, im⟩ r p = .ok false) ∧
    (∀ (gpuIds : List Int) (g : Int) (gs : List Int) (bm hm im : String)
        (b hw : Bool) (r p : Int),
        decideWhetherToUseGpusForPmeWithThreadMpi true TaskTarget.Auto gpuIds
          (g :: gs) ⟨b, bm, hw, hm, false, im⟩ r p = .ok false) ∧
    (∀ (g : Int) (gs : List Int) (support : PmeGpuSupport) (r p : Int) (gd : Bool),
        decideWhetherToUseGpusForPme false TaskTarget.Auto (g :: gs)
          support r p gd = .ok false) ∧
    (∀ (g : Int) (gs : List Int) (bm hm im : String) (hw inp : Bool) (r p : Int) (gd : Bool),
        decideWhetherToUseGpusForPme true TaskTarget.Auto (g :: gs)
          ⟨false, bm, hw, hm, inp, im⟩ r p gd = .ok false) ∧
    (∀ (g : Int) (gs : List Int) (bm hm im : String) (inp : Bool) (r p : Int) (gd : Bool),
        decideWhetherToUseGpusForPme true TaskTarget.Auto (g :: gs)
          ⟨true, bm, false, hm, inp, im⟩ r p gd = .ok false) ∧
    (∀ (g : Int) (gs : List Int) (bm hm im : String) (r p : Int) (gd : Bool),
        decideWhetherToUseGpusForPme true TaskTarget.Auto (g :: gs)
          ⟨true, bm, true, hm, false, im⟩ r p gd = .ok false) := by
  refine ⟨?_, ?_, ?_, ?_, ?_, ?_, ?_, ?_, ?_, ?_, ?_, ?_, ?_, ?_, ?_, ?_, ?_⟩ <;> intros <;>
    simp [decideWhetherToUseGpusForNonbondedWithThreadMpi,
      decideWhetherToUseGpusForNonbonded,
      decideWhetherToUseGpusForPmeWithThreadMpi, decideWhetherToUseGpusForPme]

/-- Claim C6 counterexample: in `decideWhetherToUseGpusForPme`, a non-empty
explicit device assignment combined with a ForceCPU PME target returns
false rather than raising InconsistentInput. -/
theorem pme_cpu_target_with_assignment_returns_false :
    decideWhetherToUseGpusForPme true TaskTarget.Cpu [0]
        ⟨true, "", true, "", true, ""⟩ 1 1 true = .ok false := rfl

/-- Claim C6 (amended): a ForceCPU target yields the placement false with no
raised error for every resolver, even with a non-empty explicit device
assignment, except in `decideWhetherToUseGpusForNonbonded`, where a
non-empty assignment combined with a CPU nonbonded target raises
InconsistentInput. -/
theorem force_cpu_target_yields_false :
    (∀ (gpuIds ua : List Int) (e : EmulateGpuNonbonded) (b u : Bool) (r : Int),
        decideWhetherToUseGpusForNonbondedWithThreadMpi TaskTarget.Cpu gpuIds ua
          e b u r = .ok false) ∧
    (∀ (nb : Bool) (gpuIds ua : List Int) (support : PmeGpuSupport) (r p : Int),
        decideWhetherToUseGpusForPmeWithThreadMpi nb TaskTarget.Cpu gpuIds ua
          support r p = .ok false) ∧
    (∀ (nb : Bool) (ua : List Int) (support : PmeGpuSupport) (r p : Int) (gd : Bool),
        decideWhetherToUseGpusForPme nb TaskTarget.Cpu ua support r p gd = .ok false) ∧
    (∀ (nb pme canUse lj elec : Bool) (p : Int) (gd : Bool),
        decideWhetherToUseGpusForBonded nb pme TaskTarget.Cpu canUse lj elec p gd =
          .ok false) ∧
    (∀ (fgu dd pme nb gd cuda : Bool) (ir : t_inputrec) (vs ed orr re : Bool),
        decideWhetherToUseGpuForUpdate fgu dd pme nb TaskTarget.Cpu gd cuda ir
          vs ed orr re = .ok false) ∧
    (∀ (e : EmulateGpuNonbonded) (b u gd : Bool),
        decideWhetherToUseGpusForNonbonded TaskTarget.Cpu [] e b u gd = .ok false) ∧
    (∀ (g : Int) (gs : List Int) (e : EmulateGpuNonbonded) (b u gd : Bool),
        decideWhetherToUseGpusForNonbonded TaskTarget.Cpu (g :: gs) e b u gd =
          .error ⟨.InconsistentInput, nonbondedCpuTaskAssignmentMessage⟩) := by
  refine ⟨?_, ?_, ?_, ?_, ?_, ?_, ?_⟩ <;> intros <;>
    simp [decideWhetherToUseGpusForNonbondedWithThreadMpi,
      decideWhetherToUseGpusForPmeWithThreadMpi, decideWhetherToUseGpusForPme,
      decideWhetherToUseGpusForBonded, decideWhetherToUseGpuForUpdate,
      decideWhetherToUseGpusForNonbonded]

/-- The bonded Auto-policy result as the claim words it: accelerator
detected, and either the reciprocal electrostatics method is in use but PME
is not on the accelerator, or LJ-PME is active.  (Modelled from the spec's
words for comparison with the source's policy, which additionally requires
a non-positive dedicated-PME-rank count.) -/
def bondedAutoClaimedResult (useGpuForPme usingLJPme usingElecPmeOrEwald gpusWereDetected : Bool) : Bool :=
  gpusWereDetected && ((usingElecPmeOrEwald && !useGpuForPme) || usingLJPme)

/-- Claim C7 counterexample: with one dedicated PME rank
(numPmeRanksPerSimulation = 1), reciprocal electrostatics on the CPU, an
accelerator detected, bonded target Auto, capability present and nonbonded
on the accelerator, the bonded resolver returns false although the claimed
formula evaluates to true. -/
theorem bonded_auto_differs_from_claimed_formula :
    decideWhetherToUseGpusForBonded true false TaskTarget.Auto true false true 1 true =
        .ok false ∧
      bondedAutoClaimedResult false false true true = true := ⟨rfl, rfl⟩

/-- Claim C7 (amended): for the bonded resolver with target Auto, capability
present and nonbonded on the accelerator, the result is true iff an
accelerator was detected AND (LJ-PME is active, or the reciprocal
electrostatics method is in use, PME is not on the accelerator, and the
dedicated-PME-rank count is not positive). -/
theorem bonded_auto_policy :
    ∀ (useGpuForPme usingLJPme usingElecPmeOrEwald : Bool) (p : Int) (gd : Bool),
      decideWhetherToUseGpusForBonded true useGpuForPme TaskTarget.Auto true
          usingLJPme usingElecPmeOrEwald p gd =
        .ok (gd && (usingLJPme ||
          (usingElecPmeOrEwald && !useGpuForPme && decide (p ≤ 0)))) := by
  intros
  simp [decideWhetherToUseGpusForBonded]

/-- Claim C8: the thread-MPI PME resolver with no explicit assignment,
target Auto, nonbonded on the accelerator and all capability predicates
passing returns true iff the rank count is 1 and a usable accelerator
exists; for an unresolved (sentinel, < 1) rank count, true iff exactly one
accelerator is usable; for any other rank count, false. -/
theorem threadMpi_pme_auto_policy :
    ∀ (gpuIds : List Int) (bm hm im : String) (r p : Int),
      decideWhetherToUseGpusForPmeWithThreadMpi true TaskTarget.Auto gpuIds []
          ⟨true, bm, true, hm, true, im⟩ r p =
        .ok (if r = 1 then !gpuIds.isEmpty
             else if r < 1 then decide (gpuIds.length = 1)
             else false) := by
  intro gpuIds bm hm im r p
  by_cases h₁ : r = 1
  · simp [decideWhetherToUseGpusForPmeWithThreadMpi, h₁]
  · by_cases h₂ : r < 1 <;>
      simp [decideWhetherToUseGpusForPmeWithThreadMpi, h₁, h₂]

/-- Recognises the error raised by the dead branch of
`decideWhetherToUseGpusForPme` for a task assignment combined with a CPU
PME target. -/
def isPmeCpuTaskAssignmentError : DecideResult → Bool
  | .error e => decide (e = ⟨.InconsistentInput, pmeCpuTaskAssignmentMessage⟩)
  | .ok _ => false

/-- Claim C9: in `decideWhetherToUseGpusForPme`, a ForceCPU PME target
always returns false at the first check, so the later branch raising
InconsistentInput for a non-empty explicit device assignment combined with
a ForceCPU PME target is unreachable: no input makes this resolver raise
that error. -/
theorem pme_cpu_assignment_branch_unreachable :
    (∀ (nb : Bool) (ua : List Int) (support : PmeGpuSupport) (r p : Int) (gd : Bool),
        decideWhetherToUseGpusForPme nb TaskTarget.Cpu ua support r p gd = .ok false) ∧
    (∀ (nb : Bool) (t : TaskTarget) (ua : List Int) (support : PmeGpuSupport)
        (r p : Int) (gd : Bool),
        isPmeCpuTaskAssignmentError
          (decideWhetherToUseGpusForPme nb t ua support r p gd) = false) := by
  constructor
  · intros
    simp [decideWhetherToUseGpusForPme]
  · intro nb t ua support r p gd
    unfold decideWhetherToUseGpusForPme
    split_ifs <;>
      simp_all [isPmeCpuTaskAssignmentError, pmeCpuTaskAssignmentMessage,
        g_specifyEverythingFormatString, pmeRequiresNonbondedMessage,
        cannotComputePmeMessage, pmeMultipleRanksNotImplementedMessage]

/-- Recognises a raised error of category NotImplemented. -/
def raisesNotImplementedError : DecideResult → Bool
  | .error e => decide (e.category = ErrorCategory.NotImplemented)
  | .ok _ => false

/-- Claim C10: for every input, the bonded resolver either returns a boolean
or raises an error of category InconsistentInput; it never raises a
NotImplemented error. -/
theorem bonded_never_raises_not_implemented :
    ∀ (nb pme : Bool) (t : TaskTarget) (canUse lj elec : Bool) (p : Int) (gd : Bool),
      raisesNotImplementedError
        (decideWhetherToUseGpusForBonded nb pme t canUse lj elec p gd) = false := by
  intro nb pme t canUse lj elec p gd
  unfold decideWhetherToUseGpusForBonded
  split_ifs <;> simp [raisesNotImplementedError]

end gmx
